import Mathlib

/-!
Verification development for the construction calculator application
(six calculator tabs plus a summary aggregator, with JSON project
persistence).  The Python code is shallowly embedded: widget-bound
numeric inputs become fields of explicit input structures over the
rationals, each calculate handler becomes a pure function returning
either an outcome value or an explicit error constructor, and the
float constant math.pi is abstracted as an explicit rational
parameter (every statement proved here holds for an arbitrary value
of that parameter).  Displayed labels are modelled by the numeric
values they render; float rounding and string formatting are outside
the model.
-/

namespace ConstructionCalc

/-! ## block_data.py -/

/-- Embedding of the BlockType dataclass from block_data.py:
a block size catalog entry with commercial data. -/
structure BlockType where
  name : String
  length_m : ℚ
  height_m : ℚ
  thickness_m : ℚ
  blocks_per_pallet : ℤ
  default_cost_usd : ℚ
deriving DecidableEq

/-- The first catalog entry of BLOCK_TYPES in block_data.py,
40 x 20 x 20 cm hollow, 108 blocks per pallet, 0.55 USD default. -/
def block40x20x20 : BlockType :=
  { name := "40 x 20 x 20 cm (hollow)"
    length_m := 2/5
    height_m := 1/5
    thickness_m := 1/5
    blocks_per_pallet := 108
    default_cost_usd := 11/20 }

/-! ## breeze_block_tab.py (Masonry Quantity Calculator) -/

/-- Input state of BreezeBlockTab: the values of the spin boxes read
at the top of the handler on_calculate_clicked. -/
structure MasonryInputs where
  wall_length : ℚ
  wall_height : ℚ
  wall_count : ℤ
  arc_radius : ℚ
  arc_height : ℚ
  arc_count : ℤ
  reactor_length : ℚ
  reactor_width : ℚ
  reactor_height : ℚ
  reactor_count : ℤ
  cost_per_block : ℚ

/-- Output values written to the result labels of BreezeBlockTab. -/
structure MasonryOutputs where
  wall_area : ℚ
  arc_area_total : ℚ
  reactor_area_total : ℚ
  total_area : ℚ
  blocks_required : ℤ
  pallets_required : ℤ
  leftover_blocks : ℤ
  total_cost : ℚ

/-- Embedding of the computation body of the handler
on_calculate_clicked in breeze_block_tab.py, for a given selected
block type.  The parameter piq stands for the float constant math.pi.
Ceiling division of rationals models math.ceil applied to true (/)
division. -/
def masonryCalculate (piq : ℚ) (block : BlockType) (s : MasonryInputs) : MasonryOutputs :=
  let wall_area : ℚ :=
    if 0 < s.wall_length ∧ 0 < s.wall_height ∧ 0 < s.wall_count then
      s.wall_length * s.wall_height * (s.wall_count : ℚ)
    else 0
  let arc_area_total : ℚ :=
    if 0 < s.arc_radius ∧ 0 < s.arc_height ∧ 0 < s.arc_count then
      piq * s.arc_radius * s.arc_height * (s.arc_count : ℚ)
    else 0
  let reactor_area_total : ℚ :=
    if 0 < s.reactor_length ∧ 0 < s.reactor_width ∧ 0 < s.reactor_height ∧ 0 < s.reactor_count then
      (3 * s.reactor_length + 2 * piq * (s.reactor_width / 2)) * s.reactor_height * (s.reactor_count : ℚ)
    else 0
  let total_area : ℚ := wall_area + arc_area_total + reactor_area_total
  let block_face_area : ℚ := block.length_m * block.height_m
  let blocks_required : ℤ :=
    if 0 < block_face_area ∧ 0 < total_area then ⌈total_area / block_face_area⌉ else 0
  let blocks_per_pallet : ℤ := max 1 block.blocks_per_pallet
  let pallets_required : ℤ :=
    if 0 < blocks_required then ⌈(blocks_required : ℚ) / (blocks_per_pallet : ℚ)⌉ else 0
  let leftover_blocks : ℤ :=
    if 0 < blocks_required then pallets_required * blocks_per_pallet - blocks_required else 0
  { wall_area := wall_area
    arc_area_total := arc_area_total
    reactor_area_total := reactor_area_total
    total_area := total_area
    blocks_required := blocks_required
    pallets_required := pallets_required
    leftover_blocks := leftover_blocks
    total_cost := (blocks_required : ℚ) * s.cost_per_block }

/-- Embedding of the full handler on_calculate_clicked of
BreezeBlockTab: with no selected block type it warns and returns
without producing a result (modelled as none). -/
def masonryOnCalculate (piq : ℚ) (current_block : Option BlockType)
    (s : MasonryInputs) : Option MasonryOutputs :=
  match current_block with
  | none => none
  | some block => some (masonryCalculate piq block s)

end ConstructionCalc

namespace ConstructionCalc

/-! ## Masonry rounding facts -/

/-- Ceiling division of positive integers, bounded below and above:
the rounded-up pallet count covers the blocks and overshoots by less
than one pallet. -/
lemma ceil_div_mul_bounds (n b : ℤ) (hb : 1 ≤ b) :
    n ≤ ⌈(n : ℚ) / (b : ℚ)⌉ * b ∧ ⌈(n : ℚ) / (b : ℚ)⌉ * b < n + b := by
  have hb0 : (0 : ℚ) < (b : ℚ) := by exact_mod_cast lt_of_lt_of_le Int.zero_lt_one hb
  constructor
  · have h := Int.le_ceil ((n : ℚ) / (b : ℚ))
    have h2 : (n : ℚ) ≤ (⌈(n : ℚ) / (b : ℚ)⌉ : ℚ) * (b : ℚ) :=
      (div_le_iff₀ hb0).mp h
    exact_mod_cast h2
  · have h := Int.ceil_lt_add_one ((n : ℚ) / (b : ℚ))
    have h2 : (⌈(n : ℚ) / (b : ℚ)⌉ : ℚ) * (b : ℚ) < (n : ℚ) + (b : ℚ) := by
      have h3 : ((⌈(n : ℚ) / (b : ℚ)⌉ : ℚ) - 1) * (b : ℚ) < (n : ℚ) := by
        rw [← lt_div_iff₀ hb0]
        linarith
      nlinarith
    exact_mod_cast h2

/-- Core arithmetic of the pallet computation in
on_calculate_clicked of breeze_block_tab.py: given the block count
and a pallet size, the code computes pallets and leftover satisfying
the rounding law. -/
lemma pallet_rounding_core (blocks b p l : ℤ) (hb : 1 ≤ b) (hblocks : 0 ≤ blocks)
    (hp : p = if 0 < blocks then ⌈(blocks : ℚ) / (b : ℚ)⌉ else 0)
    (hl : l = if 0 < blocks then p * b - blocks else 0) :
    p * b - blocks = l ∧ 0 ≤ l ∧ l < b ∧ p = ⌈(blocks : ℚ) / (b : ℚ)⌉ := by
  rcases eq_or_lt_of_le hblocks with hz | hpos
  · subst hz
    simp only [lt_irrefl, if_false] at hp hl
    subst hp; subst hl
    refine ⟨by ring, le_refl 0, lt_of_lt_of_le Int.zero_lt_one hb, ?_⟩
    norm_num
  · rw [if_pos hpos] at hp hl
    obtain ⟨hlo, hhi⟩ := ceil_div_mul_bounds blocks b hb
    subst hp
    refine ⟨hl.symm, ?_, ?_, rfl⟩
    · rw [hl]; omega
    · rw [hl]; omega

/-- Ceiling of a guarded positive quotient is never negative. -/
lemma blocks_if_nonneg (A F : ℚ) :
    0 ≤ (if 0 < F ∧ 0 < A then ⌈A / F⌉ else (0 : ℤ)) := by
  split
  · next hc => exact Int.ceil_nonneg (le_of_lt (div_pos hc.2 hc.1))
  · exact le_refl (0 : ℤ)

/-- Definitional restatement of the block count produced by
masonryCalculate. -/
lemma masonryCalculate_blocks_eq (piq : ℚ) (block : BlockType) (s : MasonryInputs) :
    (masonryCalculate piq block s).blocks_required
      = if 0 < block.length_m * block.height_m ∧ 0 < (masonryCalculate piq block s).total_area
        then ⌈(masonryCalculate piq block s).total_area / (block.length_m * block.height_m)⌉
        else 0 := rfl

/-- Blocks required is never negative in the masonry calculation. -/
lemma masonryCalculate_blocks_nonneg (piq : ℚ) (block : BlockType) (s : MasonryInputs) :
    0 ≤ (masonryCalculate piq block s).blocks_required := by
  rw [masonryCalculate_blocks_eq]
  exact blocks_if_nonneg (masonryCalculate piq block s).total_area
    (block.length_m * block.height_m)

/-- Definitional restatement of the pallet count produced by
masonryCalculate, with the clamped divisor visible. -/
lemma masonryCalculate_pallets_eq (piq : ℚ) (block : BlockType) (s : MasonryInputs) :
    (masonryCalculate piq block s).pallets_required
      = if 0 < (masonryCalculate piq block s).blocks_required
        then ⌈((masonryCalculate piq block s).blocks_required : ℚ)
              / ((max 1 block.blocks_per_pallet : ℤ) : ℚ)⌉
        else 0 := rfl

/-- Definitional restatement of the leftover count produced by
masonryCalculate. -/
lemma masonryCalculate_leftover_eq (piq : ℚ) (block : BlockType) (s : MasonryInputs) :
    (masonryCalculate piq block s).leftover_blocks
      = if 0 < (masonryCalculate piq block s).blocks_required
        then (masonryCalculate piq block s).pallets_required
              * (max 1 block.blocks_per_pallet) - (masonryCalculate piq block s).blocks_required
        else 0 := rfl

/-- C5: for every masonry computation with a selected block type whose
catalog invariant units per pallet at least 1 holds, the outputs
satisfy pallets times units per pallet minus blocks equals leftover,
the leftover lies in the interval from 0 inclusive to units per pallet
exclusive, and pallets equals the ceiling of blocks divided by units
per pallet. -/
theorem masonry_pallet_rounding_law (piq : ℚ) (block : BlockType) (s : MasonryInputs)
    (h : 1 ≤ block.blocks_per_pallet) :
    (masonryCalculate piq block s).pallets_required * block.blocks_per_pallet
        - (masonryCalculate piq block s).blocks_required
      = (masonryCalculate piq block s).leftover_blocks ∧
    0 ≤ (masonryCalculate piq block s).leftover_blocks ∧
    (masonryCalculate piq block s).leftover_blocks < block.blocks_per_pallet ∧
    (masonryCalculate piq block s).pallets_required
      = ⌈((masonryCalculate piq block s).blocks_required : ℚ) / (block.blocks_per_pallet : ℚ)⌉ := by
  have hmax : max 1 block.blocks_per_pallet = block.blocks_per_pallet := max_eq_right h
  have hcore := pallet_rounding_core
    (masonryCalculate piq block s).blocks_required
    (max 1 block.blocks_per_pallet)
    (masonryCalculate piq block s).pallets_required
    (masonryCalculate piq block s).leftover_blocks
    (le_max_left 1 block.blocks_per_pallet)
    (masonryCalculate_blocks_nonneg piq block s)
    (masonryCalculate_pallets_eq piq block s)
    (masonryCalculate_leftover_eq piq block s)
  rw [hmax] at hcore
  exact hcore

/-- C5 witness: the scenario from the specification, block face
0.40 x 0.20 m with 108 units per pallet at 0.55 USD, one straight
wall 10 m by 3 m, gives 375 blocks, 4 pallets, 57 leftover and
cost 206.25 USD, and satisfies the rounding law. -/
theorem masonry_pallet_rounding_law_witness :
    (1 : ℤ) ≤ block40x20x20.blocks_per_pallet ∧
    (masonryCalculate (314159/100000) block40x20x20
      { wall_length := 10, wall_height := 3, wall_count := 1
        arc_radius := 0, arc_height := 0, arc_count := 0
        reactor_length := 0, reactor_width := 0, reactor_height := 0, reactor_count := 0
        cost_per_block := 11/20 }).pallets_required * block40x20x20.blocks_per_pallet
        - (masonryCalculate (314159/100000) block40x20x20
      { wall_length := 10, wall_height := 3, wall_count := 1
        arc_radius := 0, arc_height := 0, arc_count := 0
        reactor_length := 0, reactor_width := 0, reactor_height := 0, reactor_count := 0
        cost_per_block := 11/20 }).blocks_required
      = (masonryCalculate (314159/100000) block40x20x20
      { wall_length := 10, wall_height := 3, wall_count := 1
        arc_radius := 0, arc_height := 0, arc_count := 0
        reactor_length := 0, reactor_width := 0, reactor_height := 0, reactor_count := 0
        cost_per_block := 11/20 }).leftover_blocks := by
  refine ⟨by decide, ?_⟩
  exact (masonry_pallet_rounding_law (314159/100000) block40x20x20
    { wall_length := 10, wall_height := 3, wall_count := 1
      arc_radius := 0, arc_height := 0, arc_count := 0
      reactor_length := 0, reactor_width := 0, reactor_height := 0, reactor_count := 0
      cost_per_block := 11/20 } (by decide)).1

/-- C10: even for a block type whose blocks per pallet field is zero
or negative, the masonry computation clamps the divisor to at least 1,
so pallets and leftover are well defined, the leftover is never
negative, and the rounding law holds for the clamped divisor. -/
theorem masonry_pallet_clamped_safe (piq : ℚ) (block : BlockType) (s : MasonryInputs) :
    0 ≤ (masonryCalculate piq block s).leftover_blocks ∧
    (masonryCalculate piq block s).pallets_required * (max 1 block.blocks_per_pallet)
        - (masonryCalculate piq block s).blocks_required
      = (masonryCalculate piq block s).leftover_blocks ∧
    (masonryCalculate piq block s).leftover_blocks < max 1 block.blocks_per_pallet ∧
    1 ≤ max 1 block.blocks_per_pallet := by
  have hcore := pallet_rounding_core
    (masonryCalculate piq block s).blocks_required
    (max 1 block.blocks_per_pallet)
    (masonryCalculate piq block s).pallets_required
    (masonryCalculate piq block s).leftover_blocks
    (le_max_left 1 block.blocks_per_pallet)
    (masonryCalculate_blocks_nonneg piq block s)
    (masonryCalculate_pallets_eq piq block s)
    (masonryCalculate_leftover_eq piq block s)
  exact ⟨hcore.2.1, hcore.1, hcore.2.2.1, le_max_left 1 block.blocks_per_pallet⟩

end ConstructionCalc

namespace ConstructionCalc

/-! ## sweet_sand_tab.py (Fill Material Calculator) -/

/-- Input state of SweetSandTab: the spin box values read at the top
of the handler on_calculate_clicked. -/
structure SweetSandInputs where
  length_total : ℚ
  width : ℚ
  fill_height_cm : ℚ
  corner_radius_cm : ℚ
  bulk_density : ℚ
  cost_per_ton : ℚ

/-- Output values written to the result labels of SweetSandTab. -/
structure SweetSandOutputs where
  rect_length : ℚ
  radius : ℚ
  plan_area : ℚ
  volume_base : ℚ
  volume_corner : ℚ
  volume_total : ℚ
  weight_kg : ℚ
  weight_tons : ℚ
  total_cost : ℚ
deriving DecidableEq

/-- Outcome of the sweet sand handler: the first validation block
aborts with an invalid-input dialog, the second with a geometry
warning dialog; only the ok outcome writes the result labels. -/
inductive SweetSandResult where
  | invalidInput
  | geometryWarning
  | ok (out : SweetSandOutputs)
deriving DecidableEq

/-- Embedding of the geometry and cost part of the handler
on_calculate_clicked in sweet_sand_tab.py, after both validation
gates have passed. -/
def sweetSandCompute (piq : ℚ) (s : SweetSandInputs) : SweetSandOutputs :=
  let H := s.fill_height_cm / 100
  let r_corner := s.corner_radius_cm / 100
  let L_rect := s.length_total - s.width
  let R := s.width / 2
  let area_total := s.width * L_rect + piq * R ^ 2
  let volume_base := area_total * H
  let volume_corner :=
    if 0 < r_corner then
      (2 * L_rect + 2 * piq * R + 2 * L_rect) * (piq * r_corner ^ 2 / 4)
    else 0
  let volume_total := volume_base + volume_corner
  let weight_kg := volume_total * s.bulk_density
  let weight_tons := weight_kg / 1000
  { rect_length := L_rect
    radius := R
    plan_area := area_total
    volume_base := volume_base
    volume_corner := volume_corner
    volume_total := volume_total
    weight_kg := weight_kg
    weight_tons := weight_tons
    total_cost := weight_tons * s.cost_per_ton }

/-- Embedding of the handler on_calculate_clicked in
sweet_sand_tab.py.  The cm inputs are divided by 100 first, then the
two validation gates run in order, then the geometry is computed. -/
def sweetSandCalculate (piq : ℚ) (s : SweetSandInputs) : SweetSandResult :=
  let H := s.fill_height_cm / 100
  if s.length_total ≤ 0 ∨ s.width ≤ 0 ∨ H ≤ 0 ∨ s.bulk_density ≤ 0 ∨ s.cost_per_ton < 0 then
    .invalidInput
  else if s.length_total ≤ s.width then
    .geometryWarning
  else
    .ok (sweetSandCompute piq s)

/-- Label-update step of SweetSandTab: any outcome other than ok
leaves the previously displayed outputs untouched. -/
def sweetSandStep (piq : ℚ) (s : SweetSandInputs) (displayed : SweetSandOutputs) :
    SweetSandOutputs :=
  match sweetSandCalculate piq s with
  | .ok out => out
  | _ => displayed

/-- C7: whenever the overall length does not exceed the width while
the other basic inputs pass the earlier validation (length, width,
height and density positive, cost per tonne non-negative), the fill
material computation signals the geometry warning and aborts, and the
previously displayed outputs are left unchanged. -/
theorem sweet_sand_geometry_guard (piq : ℚ) (s : SweetSandInputs)
    (hL : 0 < s.length_total) (hW : 0 < s.width) (hH : 0 < s.fill_height_cm)
    (hrho : 0 < s.bulk_density) (hc : 0 ≤ s.cost_per_ton)
    (hgeom : s.length_total ≤ s.width) :
    sweetSandCalculate piq s = .geometryWarning ∧
    ∀ displayed : SweetSandOutputs, sweetSandStep piq s displayed = displayed := by
  have hcalc : sweetSandCalculate piq s = .geometryWarning := by
    unfold sweetSandCalculate
    rw [if_neg, if_pos hgeom]
    push_neg
    exact ⟨hL, hW, by positivity, hrho, hc⟩
  refine ⟨hcalc, ?_⟩
  intro displayed
  unfold sweetSandStep
  rw [hcalc]

/-- C7 witness: the scenario from the specification, overall length
5 m with width 6 m (and positive height, density, non-negative cost),
aborts with the geometry warning, leaving displayed outputs intact. -/
theorem sweet_sand_geometry_guard_witness :
    sweetSandCalculate (314159/100000)
      { length_total := 5, width := 6, fill_height_cm := 10
        corner_radius_cm := 0, bulk_density := 1600, cost_per_ton := 133/10 }
      = .geometryWarning := by
  exact (sweet_sand_geometry_guard (314159/100000)
    { length_total := 5, width := 6, fill_height_cm := 10
      corner_radius_cm := 0, bulk_density := 1600, cost_per_ton := 133/10 }
    (by norm_num) (by norm_num) (by norm_num) (by norm_num) (by norm_num) (by norm_num)).1

end ConstructionCalc

namespace ConstructionCalc

/-! ## concrete_tab.py (Concrete Element Calculator) -/

/-- Input state of ConcreteTab: the values of the widgets that
_build_ui constructs (geometry for the four element variants plus the
material spin boxes).  There is no formwork rate field because
_build_ui never constructs a formwork rate widget. -/
structure ConcreteInputs where
  element_type_index : ℕ
  slab_length : ℚ
  slab_width : ℚ
  slab_thickness_cm : ℚ
  slab_count : ℤ
  strip_length : ℚ
  strip_width : ℚ
  strip_thickness_cm : ℚ
  wall_length : ℚ
  wall_height : ℚ
  wall_thickness_cm : ℚ
  wall_count : ℤ
  iso_length : ℚ
  iso_width : ℚ
  iso_thickness_cm : ℚ
  iso_count : ℤ
  conc_density : ℚ
  conc_cost : ℚ
  rebar_intensity : ℚ
  rebar_cost : ℚ
deriving DecidableEq

/-- Embedding of ConcreteTab._calculate_geometry: volume and
approximate formwork area for the selected element type, or a
ValueError message when a required geometric factor is not positive. -/
def concreteCalculateGeometry (s : ConcreteInputs) : Except String (ℚ × ℚ) :=
  if s.element_type_index = 0 then
    let T := s.slab_thickness_cm / 100
    if s.slab_length ≤ 0 ∨ s.slab_width ≤ 0 ∨ T ≤ 0 ∨ s.slab_count ≤ 0 then
      .error "For slabs, length, width, thickness and count must all be > 0."
    else
      .ok (s.slab_length * s.slab_width * T * (s.slab_count : ℚ),
           2 * (s.slab_length + s.slab_width) * T * (s.slab_count : ℚ))
  else if s.element_type_index = 1 then
    let T := s.strip_thickness_cm / 100
    if s.strip_length ≤ 0 ∨ s.strip_width ≤ 0 ∨ T ≤ 0 then
      .error "For strip footings, length, width and thickness must all be > 0."
    else
      .ok (s.strip_length * s.strip_width * T, 2 * s.strip_length * T)
  else if s.element_type_index = 2 then
    let T := s.wall_thickness_cm / 100
    if s.wall_length ≤ 0 ∨ s.wall_height ≤ 0 ∨ T ≤ 0 ∨ s.wall_count ≤ 0 then
      .error "For walls, length, height, thickness and count must all be > 0."
    else
      .ok (s.wall_length * s.wall_height * T * (s.wall_count : ℚ),
           2 * s.wall_length * s.wall_height * (s.wall_count : ℚ))
  else if s.element_type_index = 3 then
    let T := s.iso_thickness_cm / 100
    if s.iso_length ≤ 0 ∨ s.iso_width ≤ 0 ∨ T ≤ 0 ∨ s.iso_count ≤ 0 then
      .error "For isolated footings, length, width, thickness and count must all be > 0."
    else
      .ok (s.iso_length * s.iso_width * T * (s.iso_count : ℚ),
           2 * (s.iso_length + s.iso_width) * T * (s.iso_count : ℚ))
  else
    .error "Unknown element type index."

/-- Attribute lookup for the double spin boxes of ConcreteTab,
mirroring exactly the widgets constructed in _build_ui: a getattr of
any name that _build_ui never constructs yields none (an
AttributeError in Python).  In particular the name formwork_rate_spin
read by _calculate_and_update is absent. -/
def concreteSpinAttr (s : ConcreteInputs) (attr_name : String) : Option ℚ :=
  if attr_name = "slab_length_spin" then some s.slab_length
  else if attr_name = "slab_width_spin" then some s.slab_width
  else if attr_name = "slab_thickness_spin" then some s.slab_thickness_cm
  else if attr_name = "slab_count_spin" then some (s.slab_count : ℚ)
  else if attr_name = "strip_length_spin" then some s.strip_length
  else if attr_name = "strip_width_spin" then some s.strip_width
  else if attr_name = "strip_thickness_spin" then some s.strip_thickness_cm
  else if attr_name = "wall_length_spin" then some s.wall_length
  else if attr_name = "wall_height_spin" then some s.wall_height
  else if attr_name = "wall_thickness_spin" then some s.wall_thickness_cm
  else if attr_name = "wall_count_spin" then some (s.wall_count : ℚ)
  else if attr_name = "iso_length_spin" then some s.iso_length
  else if attr_name = "iso_width_spin" then some s.iso_width
  else if attr_name = "iso_thickness_spin" then some s.iso_thickness_cm
  else if attr_name = "iso_count_spin" then some (s.iso_count : ℚ)
  else if attr_name = "conc_density_spin" then some s.conc_density
  else if attr_name = "conc_cost_spin" then some s.conc_cost
  else if attr_name = "rebar_intensity_spin" then some s.rebar_intensity
  else if attr_name = "rebar_cost_spin" then some s.rebar_cost
  else none

/-- Output values that _calculate_and_update would write to the
result labels of ConcreteTab. -/
structure ConcreteOutputs where
  volume : ℚ
  form_area : ℚ
  conc_weight_kg : ℚ
  rebar_kg : ℚ
  rebar_tons : ℚ
  cost_conc : ℚ
  cost_rebar : ℚ
  cost_form : ℚ
  total : ℚ
deriving DecidableEq

/-- Outcome of ConcreteTab._calculate_and_update: a ValueError from
geometry is caught and the call returns quietly (invalidInput); an
uncaught AttributeError escapes when the code reads the
never-constructed formwork_rate_spin widget; only ok writes labels. -/
inductive ConcreteCalcResult where
  | invalidInput
  | attributeError
  | ok (out : ConcreteOutputs)
deriving DecidableEq

/-- Embedding of ConcreteTab._calculate_and_update: geometry first
(ValueError caught, quiet return), then the materials are read,
including the getattr of formwork_rate_spin, which _build_ui never
constructs, so the read raises before any label is written. -/
def concreteCalculateAndUpdate (s : ConcreteInputs) : ConcreteCalcResult :=
  match concreteCalculateGeometry s with
  | .error _ => .invalidInput
  | .ok va =>
    match concreteSpinAttr s "formwork_rate_spin" with
    | none => .attributeError
    | some formwork_rate =>
      let vol := va.1
      let form_area := va.2
      let rebar_kg := vol * s.rebar_intensity
      .ok
        { volume := vol
          form_area := form_area
          conc_weight_kg := vol * s.conc_density
          rebar_kg := rebar_kg
          rebar_tons := rebar_kg / 1000
          cost_conc := vol * s.conc_cost
          cost_rebar := rebar_kg * s.rebar_cost
          cost_form := form_area * formwork_rate
          total := vol * s.conc_cost + rebar_kg * s.rebar_cost + form_area * formwork_rate }

/-- The getattr of formwork_rate_spin fails on every ConcreteTab
state, because _build_ui never constructs that widget. -/
lemma concreteSpinAttr_formwork_rate (s : ConcreteInputs) :
    concreteSpinAttr s "formwork_rate_spin" = none := by
  simp [concreteSpinAttr]

/-- On every input state, _calculate_and_update of ConcreteTab fails:
either the geometry raises a ValueError (caught, quiet return) or the
getattr of the never-constructed formwork_rate_spin raises an
AttributeError.  It never reaches the label update. -/
lemma concreteCalculateAndUpdate_never_ok (s : ConcreteInputs) :
    concreteCalculateAndUpdate s = .invalidInput ∨
    concreteCalculateAndUpdate s = .attributeError := by
  cases hgeom : concreteCalculateGeometry s with
  | error e =>
    left
    simp [concreteCalculateAndUpdate, hgeom]
  | ok va =>
    right
    simp [concreteCalculateAndUpdate, hgeom, concreteSpinAttr_formwork_rate]

/-- Slab scenario from the specification: L = 5 m, W = 4 m,
T = 20 cm, N = 1, with the default material values. -/
def slabScenario : ConcreteInputs :=
  { element_type_index := 0
    slab_length := 5, slab_width := 4, slab_thickness_cm := 20, slab_count := 1
    strip_length := 0, strip_width := 0, strip_thickness_cm := 0
    wall_length := 0, wall_height := 0, wall_thickness_cm := 0, wall_count := 1
    iso_length := 0, iso_width := 0, iso_thickness_cm := 0, iso_count := 1
    conc_density := 2400, conc_cost := 60, rebar_intensity := 100, rebar_cost := 640 }

/-- C1: the concrete element computation never completes: every call
of _calculate_and_update either aborts on invalid geometry or raises
the AttributeError for the never-constructed formwork_rate_spin
widget.  In particular the specification slab scenario (5 m by 4 m by
20 cm, count 1) passes geometry validation with volume 4 cubic meters
and formwork area 3.6 square meters, yet the computation raises
instead of reporting the total material cost. -/
theorem concrete_total_cost_never_reported :
    (∀ s : ConcreteInputs,
      concreteCalculateAndUpdate s = .invalidInput ∨
      concreteCalculateAndUpdate s = .attributeError) ∧
    concreteCalculateGeometry slabScenario = .ok (4, 18/5) ∧
    concreteCalculateAndUpdate slabScenario = .attributeError := by
  have hgeom : concreteCalculateGeometry slabScenario = .ok (4, 18/5) := by
    unfold concreteCalculateGeometry slabScenario
    norm_num
  refine ⟨concreteCalculateAndUpdate_never_ok, hgeom, ?_⟩
  simp [concreteCalculateAndUpdate, hgeom, concreteSpinAttr_formwork_rate]

end ConstructionCalc

namespace ConstructionCalc

/-! ## land_prep_tab.py (Earthworks Calculator) -/

/-- Input state of LandPrepTab: the spin box values read at the top
of the handler on_calculate_clicked. -/
structure LandPrepInputs where
  site_area : ℚ
  site_depth_cm : ℚ
  trench_length : ℚ
  trench_width : ℚ
  trench_depth_cm : ℚ
  trench_count : ℤ
  compaction_target : ℚ
  lift_thickness_cm : ℚ
  passes_per_lift : ℤ
  cost_per_m3_cut : ℚ
  cost_per_m2_pass : ℚ
deriving DecidableEq

/-- Output values written to the result labels of LandPrepTab. -/
structure LandPrepOutputs where
  V_site : ℚ
  V_trench : ℚ
  V_cut_total : ℚ
  A_comp_platform : ℚ
  A_comp_trench : ℚ
  A_comp_total : ℚ
  n_lifts_platform : ℤ
  n_lifts_trench : ℤ
  A_pass_total : ℚ
  cost_cut : ℚ
  cost_compaction : ℚ
  cost_total : ℚ
deriving DecidableEq

/-- Embedding of the computation part of
LandPrepTab.on_calculate_clicked after validation has passed. -/
def landPrepCompute (s : LandPrepInputs) : LandPrepOutputs :=
  let H_site := s.site_depth_cm / 100
  let H_trench := s.trench_depth_cm / 100
  let H_lift := s.lift_thickness_cm / 100
  let V_site := s.site_area * H_site
  let V_trench := s.trench_length * s.trench_width * H_trench * (s.trench_count : ℚ)
  let V_cut_total := V_site + V_trench
  let A_comp_platform := s.site_area
  let A_trench_base := s.trench_length * s.trench_width * (s.trench_count : ℚ)
  let A_trench_sides := 2 * s.trench_length * H_trench * (s.trench_count : ℚ)
  let A_comp_trench := A_trench_base + A_trench_sides
  let n_lifts_platform : ℤ :=
    if 0 < s.site_area ∧ 0 < H_site ∧ 0 < H_lift then ⌈H_site / H_lift⌉ else 0
  let n_lifts_trench : ℤ :=
    if 0 < s.trench_length ∧ 0 < s.trench_width ∧ 0 < H_trench ∧ 0 < H_lift then
      ⌈H_trench / H_lift⌉
    else 0
  let A_pass_platform := A_comp_platform * (n_lifts_platform : ℚ) * (s.passes_per_lift : ℚ)
  let A_pass_trench := A_comp_trench * (n_lifts_trench : ℚ) * (s.passes_per_lift : ℚ)
  let A_pass_total := A_pass_platform + A_pass_trench
  let cost_cut := V_cut_total * s.cost_per_m3_cut
  let cost_compaction := A_pass_total * s.cost_per_m2_pass
  { V_site := V_site
    V_trench := V_trench
    V_cut_total := V_cut_total
    A_comp_platform := A_comp_platform
    A_comp_trench := A_comp_trench
    A_comp_total := A_comp_platform + A_comp_trench
    n_lifts_platform := n_lifts_platform
    n_lifts_trench := n_lifts_trench
    A_pass_total := A_pass_total
    cost_cut := cost_cut
    cost_compaction := cost_compaction
    cost_total := cost_cut + cost_compaction }

/-- Outcome of the land preparation handler: each of the four
validation blocks aborts with an invalid-input dialog before any
computation happens. -/
inductive LandPrepResult where
  | invalidInput
  | ok (out : LandPrepOutputs)
deriving DecidableEq

/-- Embedding of LandPrepTab.on_calculate_clicked: the four
validation gates in source order, then the computation. -/
def landPrepCalculate (s : LandPrepInputs) : LandPrepResult :=
  if s.site_area < 0 ∨ s.site_depth_cm / 100 < 0 ∨ s.trench_length < 0 ∨
      s.trench_width < 0 ∨ s.trench_depth_cm / 100 < 0 then
    .invalidInput
  else if s.trench_count ≤ 0 then
    .invalidInput
  else if s.lift_thickness_cm / 100 ≤ 0 then
    .invalidInput
  else if s.passes_per_lift ≤ 0 then
    .invalidInput
  else
    .ok (landPrepCompute s)

/-- Inversion for a successful land preparation run: all validation
gates passed and the output is the computed record. -/
lemma landPrepCalculate_ok_inv (s : LandPrepInputs) (o : LandPrepOutputs)
    (h : landPrepCalculate s = .ok o) :
    0 ≤ s.site_area ∧ 0 ≤ s.site_depth_cm ∧ 0 ≤ s.trench_length ∧
    0 ≤ s.trench_width ∧ 0 ≤ s.trench_depth_cm ∧ 0 < s.trench_count ∧
    0 < s.lift_thickness_cm ∧ 0 < s.passes_per_lift ∧ o = landPrepCompute s := by
  unfold landPrepCalculate at h
  split at h
  · exact absurd h (by simp)
  · split at h
    · exact absurd h (by simp)
    · split at h
      · exact absurd h (by simp)
      · split at h
        · exact absurd h (by simp)
        · next h1 h2 h3 h4 =>
          push_neg at h1
          obtain ⟨ha, hd, hl, hw, ht⟩ := h1
          refine ⟨ha, by linarith, hl, hw, by linarith, by omega, by linarith, by omega, ?_⟩
          cases h
          rfl

end ConstructionCalc

namespace ConstructionCalc

/-- Dividing both operands of a quotient by 100 (the cm to m
conversion) does not change the quotient. -/
lemma div_hundred_div (a b : ℚ) : (a / 100) / (b / 100) = a / b := by
  rcases eq_or_ne b 0 with hb | hb
  · subst hb; simp
  · field_simp

/-- Definitional restatement of the platform lift count. -/
lemma landPrepCompute_lifts_platform_eq (s : LandPrepInputs) :
    (landPrepCompute s).n_lifts_platform
      = if 0 < s.site_area ∧ 0 < s.site_depth_cm / 100 ∧ 0 < s.lift_thickness_cm / 100 then
          ⌈(s.site_depth_cm / 100) / (s.lift_thickness_cm / 100)⌉
        else 0 := rfl

/-- Definitional restatement of the trench lift count. -/
lemma landPrepCompute_lifts_trench_eq (s : LandPrepInputs) :
    (landPrepCompute s).n_lifts_trench
      = if 0 < s.trench_length ∧ 0 < s.trench_width ∧ 0 < s.trench_depth_cm / 100 ∧
            0 < s.lift_thickness_cm / 100 then
          ⌈(s.trench_depth_cm / 100) / (s.lift_thickness_cm / 100)⌉
        else 0 := rfl

/-- C6: for every earthworks input passing validation, with positive
platform area the platform lift count is the ceiling of depth over
lift thickness (the cm to m conversions cancel) and is 0 exactly when
the depth is 0; symmetrically for the trenches with positive length
and width; and, as the code additionally does, the lift count is 0
whenever the platform area is 0, or the trench length or width is 0,
even with positive depth and lift thickness. -/
theorem landprep_lifts_law (s : LandPrepInputs) (o : LandPrepOutputs)
    (h : landPrepCalculate s = .ok o) :
    (0 < s.site_area →
        o.n_lifts_platform = ⌈s.site_depth_cm / s.lift_thickness_cm⌉) ∧
    (s.site_area = 0 → o.n_lifts_platform = 0) ∧
    (o.n_lifts_platform = 0 ↔ s.site_area = 0 ∨ s.site_depth_cm = 0) ∧
    (0 < s.trench_length ∧ 0 < s.trench_width →
        o.n_lifts_trench = ⌈s.trench_depth_cm / s.lift_thickness_cm⌉) ∧
    ((s.trench_length = 0 ∨ s.trench_width = 0) → o.n_lifts_trench = 0) ∧
    (o.n_lifts_trench = 0 ↔
        s.trench_length = 0 ∨ s.trench_width = 0 ∨ s.trench_depth_cm = 0) := by
  obtain ⟨hA, hD, hL, hW, hT, hN, hlift, hpass, rfl⟩ := landPrepCalculate_ok_inv s o h
  have hlift100 : 0 < s.lift_thickness_cm / 100 := by linarith
  refine ⟨?_, ?_, ?_, ?_, ?_, ?_⟩
  · intro hApos
    rw [landPrepCompute_lifts_platform_eq]
    rcases eq_or_lt_of_le hD with hd0 | hdpos
    · rw [if_neg, ← hd0]
      · simp
      · intro hc
        have := hc.2.1
        rw [← hd0] at this
        norm_num at this
    · rw [if_pos ⟨hApos, by linarith, hlift100⟩, div_hundred_div]
  · intro hA0
    rw [landPrepCompute_lifts_platform_eq, if_neg]
    intro hc
    rw [hA0] at hc
    exact lt_irrefl 0 hc.1
  · rw [landPrepCompute_lifts_platform_eq]
    constructor
    · intro h0
      by_contra hcon
      push_neg at hcon
      obtain ⟨hA0, hD0⟩ := hcon
      have hApos : 0 < s.site_area := lt_of_le_of_ne hA (Ne.symm hA0)
      have hDpos : 0 < s.site_depth_cm := lt_of_le_of_ne hD (Ne.symm hD0)
      rw [if_pos ⟨hApos, by linarith, hlift100⟩] at h0
      have hpos : (0 : ℤ) < ⌈(s.site_depth_cm / 100) / (s.lift_thickness_cm / 100)⌉ :=
        Int.ceil_pos.mpr (div_pos (by linarith) hlift100)
      omega
    · intro hcase
      rw [if_neg]
      intro hc
      rcases hcase with h0 | h0
      · rw [h0] at hc; exact lt_irrefl 0 hc.1
      · rw [h0] at hc; norm_num at hc
  · intro ⟨hLpos, hWpos⟩
    rw [landPrepCompute_lifts_trench_eq]
    rcases eq_or_lt_of_le hT with hd0 | hdpos
    · rw [if_neg, ← hd0]
      · simp
      · intro hc
        have := hc.2.2.1
        rw [← hd0] at this
        norm_num at this
    · rw [if_pos ⟨hLpos, hWpos, by linarith, hlift100⟩, div_hundred_div]
  · intro hcase
    rw [landPrepCompute_lifts_trench_eq, if_neg]
    intro hc
    rcases hcase with h0 | h0
    · rw [h0] at hc; exact lt_irrefl 0 hc.1
    · rw [h0] at hc; exact lt_irrefl 0 hc.2.1
  · rw [landPrepCompute_lifts_trench_eq]
    constructor
    · intro h0
      by_contra hcon
      push_neg at hcon
      obtain ⟨hL0, hW0, hD0⟩ := hcon
      have hLpos : 0 < s.trench_length := lt_of_le_of_ne hL (Ne.symm hL0)
      have hWpos : 0 < s.trench_width := lt_of_le_of_ne hW (Ne.symm hW0)
      have hDpos : 0 < s.trench_depth_cm := lt_of_le_of_ne hT (Ne.symm hD0)
      rw [if_pos ⟨hLpos, hWpos, by linarith, hlift100⟩] at h0
      have hpos : (0 : ℤ) < ⌈(s.trench_depth_cm / 100) / (s.lift_thickness_cm / 100)⌉ :=
        Int.ceil_pos.mpr (div_pos (by linarith) hlift100)
      omega
    · intro hcase
      rw [if_neg]
      intro hc
      rcases hcase with h0 | h0 | h0
      · rw [h0] at hc; exact lt_irrefl 0 hc.1
      · rw [h0] at hc; exact lt_irrefl 0 hc.2.1
      · rw [h0] at hc; norm_num [h0] at hc

/-- Concrete earthworks input used as a witness: platform 100 square
meters dug 50 cm deep, two trenches 10 m by 1 m dug 70 cm deep,
lift thickness 20 cm, 4 passes per lift. -/
def landPrepWitnessInputs : LandPrepInputs :=
  { site_area := 100, site_depth_cm := 50
    trench_length := 10, trench_width := 1, trench_depth_cm := 70, trench_count := 2
    compaction_target := 95, lift_thickness_cm := 20, passes_per_lift := 4
    cost_per_m3_cut := 3, cost_per_m2_pass := 1/100 }

/-- C6 witness: the concrete earthworks input validates and yields
the ceiling lift counts of the claim, 3 platform lifts and 4 trench
lifts. -/
theorem landprep_lifts_law_witness :
    (landPrepCompute landPrepWitnessInputs).n_lifts_platform = ⌈(50 : ℚ) / 20⌉ ∧
    (landPrepCompute landPrepWitnessInputs).n_lifts_trench = ⌈(70 : ℚ) / 20⌉ := by
  have h := landprep_lifts_law landPrepWitnessInputs (landPrepCompute landPrepWitnessInputs)
    (by norm_num [landPrepCalculate, landPrepWitnessInputs])
  exact ⟨h.1 (by norm_num [landPrepWitnessInputs]),
         h.2.2.2.1 ⟨by norm_num [landPrepWitnessInputs], by norm_num [landPrepWitnessInputs]⟩⟩

end ConstructionCalc

namespace ConstructionCalc

/-! ## manpower_tab.py (Labor Cost Calculator) -/

/-- One of the 11 fixed trade slots of ManpowerTab: a worker count
spin box and an hourly rate spin box. -/
structure Trade where
  trade_name : String
  workers : ℤ
  rate : ℚ
deriving DecidableEq

/-- Input state of ManpowerTab. -/
structure ManpowerInputs where
  workforce : List Trade
  days : ℤ
  hours_normal : ℚ
  hours_ot : ℚ
  ot_factor : ℚ
  mobilisation : ℚ
  demobilisation : ℚ
  daily_overhead : ℚ
  misc_allowance : ℚ
deriving DecidableEq

/-- Man-hours of one trade as computed inside the per-trade loop of
ManpowerTab.on_calculate_clicked. -/
def tradeManhours (days : ℤ) (hours_normal hours_ot : ℚ) (t : Trade) : ℚ :=
  (t.workers : ℚ) * (days : ℚ) * (hours_normal + hours_ot)

/-- Labour cost of one trade as computed inside the per-trade loop:
normal cost plus overtime cost. -/
def tradeCost (days : ℤ) (hours_normal hours_ot ot_factor : ℚ) (t : Trade) : ℚ :=
  (t.workers : ℚ) * (days : ℚ) * hours_normal * t.rate
    + (t.workers : ℚ) * (days : ℚ) * hours_ot * t.rate * ot_factor

/-- Embedding of the per-trade accumulation loop of
ManpowerTab.on_calculate_clicked: a trade with non-positive workers
or non-positive rate is skipped, the others add their man-hours and
cost to the running totals. -/
def manpowerTotals (days : ℤ) (hours_normal hours_ot ot_factor : ℚ)
    (workforce : List Trade) : ℚ × ℚ :=
  workforce.foldl
    (fun acc t =>
      if t.workers ≤ 0 ∨ t.rate ≤ 0 then acc
      else (acc.1 + tradeManhours days hours_normal hours_ot t,
            acc.2 + tradeCost days hours_normal hours_ot ot_factor t))
    (0, 0)

/-- Output values written to the result labels of ManpowerTab. -/
structure ManpowerOutputs where
  total_manhours : ℚ
  total_labour_cost : ℚ
  mob_cost : ℚ
  overhead_cost : ℚ
  grand_total : ℚ
deriving DecidableEq

/-- Computation part of ManpowerTab.on_calculate_clicked after
validation has passed. -/
def manpowerCompute (s : ManpowerInputs) : ManpowerOutputs :=
  let totals := manpowerTotals s.days s.hours_normal s.hours_ot s.ot_factor s.workforce
  let mob_cost := s.mobilisation + s.demobilisation
  let overhead_cost := s.daily_overhead * (s.days : ℚ) + s.misc_allowance
  { total_manhours := totals.1
    total_labour_cost := totals.2
    mob_cost := mob_cost
    overhead_cost := overhead_cost
    grand_total := totals.2 + mob_cost + overhead_cost }

/-- Outcome of the manpower handler. -/
inductive ManpowerResult where
  | invalidInput
  | ok (out : ManpowerOutputs)
deriving DecidableEq

/-- Embedding of ManpowerTab.on_calculate_clicked: the three
validation gates in source order, then the computation. -/
def manpowerCalculate (s : ManpowerInputs) : ManpowerResult :=
  if s.days ≤ 0 then .invalidInput
  else if s.hours_normal < 0 ∨ s.hours_ot < 0 then .invalidInput
  else if s.ot_factor < 1 then .invalidInput
  else .ok (manpowerCompute s)

/-- Modelled from the wording of the specification: a trade is active
when both its headcount and its rate are positive. -/
def specActiveTrade (t : Trade) : Bool :=
  decide (0 < t.workers) && decide (0 < t.rate)

/-- Modelled from the wording of the specification: total man-hours
is the sum of headcount times days times total daily hours over the
active trades. -/
def specTotalManhours (days : ℤ) (hours_normal hours_ot : ℚ) (workforce : List Trade) : ℚ :=
  ((workforce.filter specActiveTrade).map (tradeManhours days hours_normal hours_ot)).sum

/-- Modelled from the wording of the specification: total labour cost
is the sum of normal plus overtime cost over the active trades. -/
def specTotalLabourCost (days : ℤ) (hours_normal hours_ot ot_factor : ℚ)
    (workforce : List Trade) : ℚ :=
  ((workforce.filter specActiveTrade).map (tradeCost days hours_normal hours_ot ot_factor)).sum

/-- The accumulation loop, started from an arbitrary running total,
adds exactly the filtered sums of the specification. -/
lemma manpowerTotals_go (days : ℤ) (hours_normal hours_ot ot_factor : ℚ)
    (workforce : List Trade) (init : ℚ × ℚ) :
    workforce.foldl
      (fun acc t =>
        if t.workers ≤ 0 ∨ t.rate ≤ 0 then acc
        else (acc.1 + tradeManhours days hours_normal hours_ot t,
              acc.2 + tradeCost days hours_normal hours_ot ot_factor t))
      init
      = (init.1 + specTotalManhours days hours_normal hours_ot workforce,
         init.2 + specTotalLabourCost days hours_normal hours_ot ot_factor workforce) := by
  induction workforce generalizing init with
  | nil => simp [specTotalManhours, specTotalLabourCost]
  | cons t rest ih =>
    by_cases hact : 0 < t.workers ∧ 0 < t.rate
    · have hcond : ¬(t.workers ≤ 0 ∨ t.rate ≤ 0) := by
        push_neg
        exact ⟨hact.1, hact.2⟩
      have hfilter : specActiveTrade t = true := by
        simp [specActiveTrade, hact.1, hact.2]
      simp only [List.foldl_cons, if_neg hcond, ih, List.filter_cons, hfilter,
        specTotalManhours, specTotalLabourCost, if_true, List.map_cons, List.sum_cons,
        Prod.mk.injEq]
      constructor <;> ring
    · have hcond : t.workers ≤ 0 ∨ t.rate ≤ 0 := by
        rcases not_and_or.mp hact with hw | hr
        · exact Or.inl (by omega)
        · exact Or.inr (by linarith [not_lt.mp hr])
      have hfilter : specActiveTrade t = false := by
        simp only [specActiveTrade, Bool.and_eq_false_iff, decide_eq_false_iff_not, not_lt]
        rcases hcond with hw | hr
        · exact Or.inl hw
        · exact Or.inr hr
      simp only [List.foldl_cons, if_pos hcond, ih, List.filter_cons, hfilter,
        specTotalManhours, specTotalLabourCost, Bool.false_eq_true, if_false]

/-- C8: for every valid schedule and workforce, the labor calculator
reports total man-hours and total labour cost equal to the sums of
the per-trade formulas over the active trades (headcount and rate
both positive); a trade with headcount 0 or rate 0 contributes
nothing and is not an error: prepending it to any workforce leaves
the accumulated totals unchanged. -/
theorem labor_trade_totals (s : ManpowerInputs)
    (hd : 1 ≤ s.days) (hn : 0 ≤ s.hours_normal) (ho : 0 ≤ s.hours_ot)
    (hf : 1 ≤ s.ot_factor) :
    manpowerCalculate s = .ok (manpowerCompute s) ∧
    (manpowerCompute s).total_manhours
      = specTotalManhours s.days s.hours_normal s.hours_ot s.workforce ∧
    (manpowerCompute s).total_labour_cost
      = specTotalLabourCost s.days s.hours_normal s.hours_ot s.ot_factor s.workforce ∧
    (∀ t : Trade, ∀ rest : List Trade, t.workers ≤ 0 ∨ t.rate ≤ 0 →
      manpowerTotals s.days s.hours_normal s.hours_ot s.ot_factor (t :: rest)
        = manpowerTotals s.days s.hours_normal s.hours_ot s.ot_factor rest) := by
  refine ⟨?_, ?_, ?_, ?_⟩
  · unfold manpowerCalculate
    rw [if_neg (by omega), if_neg (by push_neg; exact ⟨hn, ho⟩), if_neg (by linarith)]
  · have h := manpowerTotals_go s.days s.hours_normal s.hours_ot s.ot_factor s.workforce (0, 0)
    unfold manpowerCompute manpowerTotals
    rw [h]
    simp
  · have h := manpowerTotals_go s.days s.hours_normal s.hours_ot s.ot_factor s.workforce (0, 0)
    unfold manpowerCompute manpowerTotals
    rw [h]
    simp
  · intro t rest hinactive
    unfold manpowerTotals
    simp only [List.foldl_cons, if_pos hinactive]

/-- The labor scenario of the specification: one active trade of 10
workers at rate 5, over 30 days of 8 normal hours and no overtime. -/
def manpowerWitnessInputs : ManpowerInputs :=
  { workforce := [{ trade_name := "Mason", workers := 10, rate := 5 }]
    days := 30, hours_normal := 8, hours_ot := 0, ot_factor := 3/2
    mobilisation := 0, demobilisation := 0, daily_overhead := 0, misc_allowance := 0 }

/-- C8 witness: the labor scenario validates and its totals equal the
specification sums, 2400 man-hours and 12000 labour cost. -/
theorem labor_trade_totals_witness :
    manpowerCalculate manpowerWitnessInputs = .ok (manpowerCompute manpowerWitnessInputs) ∧
    (manpowerCompute manpowerWitnessInputs).total_manhours = 2400 ∧
    (manpowerCompute manpowerWitnessInputs).total_labour_cost = 12000 := by
  have h := labor_trade_totals manpowerWitnessInputs
    (by norm_num [manpowerWitnessInputs]) (by norm_num [manpowerWitnessInputs])
    (by norm_num [manpowerWitnessInputs]) (by norm_num [manpowerWitnessInputs])
  refine ⟨h.1, ?_, ?_⟩
  · rw [h.2.1]
    norm_num [specTotalManhours, specActiveTrade, tradeManhours, manpowerWitnessInputs]
  · rw [h.2.2.1]
    norm_num [specTotalLabourCost, specActiveTrade, tradeCost, manpowerWitnessInputs]

end ConstructionCalc

namespace ConstructionCalc

/-! ## equipment_tab.py (Equipment Cost Calculator) -/

/-- One equipment row of EquipmentTab: unit count, hourly hire rate,
fuel burn and utilisation percentage. -/
structure EquipRow where
  row_name : String
  count : ℤ
  rate_hour : ℚ
  fuel_lph : ℚ
  util_pct : ℚ
deriving DecidableEq

/-- Input state of EquipmentTab. -/
structure EquipmentInputs where
  rows : List EquipRow
  days : ℤ
  hours_per_day : ℚ
  fuel_price : ℚ
  mobilisation : ℚ
  demobilisation : ℚ
  daily_plant_overhead : ℚ
  misc_plant_allow : ℚ
deriving DecidableEq

/-- Running totals of the per-equipment loop: operating hours, hire
cost, fuel litres and fuel cost. -/
structure EquipTotals where
  hours : ℚ
  hire_cost : ℚ
  fuel_litres : ℚ
  fuel_cost : ℚ
deriving DecidableEq

/-- Embedding of the per-equipment accumulation loop of
EquipmentTab.on_calculate_clicked: a row with non-positive count,
rate or utilisation, or a zero hours-per-day schedule, is skipped;
the others add effective hours, hire cost, fuel litres and fuel cost. -/
def equipmentTotals (schedule_hours hours_per_day fuel_price : ℚ)
    (rows : List EquipRow) : EquipTotals :=
  rows.foldl
    (fun acc row =>
      if row.count ≤ 0 ∨ row.rate_hour ≤ 0 ∨ row.util_pct ≤ 0 ∨ hours_per_day = 0 then acc
      else
        let hours_effective := (row.count : ℚ) * schedule_hours * (row.util_pct / 100)
        let fuel_litres := hours_effective * row.fuel_lph
        { hours := acc.hours + hours_effective
          hire_cost := acc.hire_cost + hours_effective * row.rate_hour
          fuel_litres := acc.fuel_litres + fuel_litres
          fuel_cost := acc.fuel_cost + fuel_litres * fuel_price })
    { hours := 0, hire_cost := 0, fuel_litres := 0, fuel_cost := 0 }

/-- Output values written to the result labels of EquipmentTab. -/
structure EquipmentOutputs where
  total_hours : ℚ
  total_hire_cost : ℚ
  total_fuel_litres : ℚ
  total_fuel_cost : ℚ
  mob_cost : ℚ
  overhead_cost : ℚ
  grand_total : ℚ
deriving DecidableEq

/-- Computation part of EquipmentTab.on_calculate_clicked after
validation has passed. -/
def equipmentCompute (s : EquipmentInputs) : EquipmentOutputs :=
  let schedule_hours := (s.days : ℚ) * s.hours_per_day
  let t := equipmentTotals schedule_hours s.hours_per_day s.fuel_price s.rows
  let mob_cost := s.mobilisation + s.demobilisation
  let overhead_cost := s.daily_plant_overhead * (s.days : ℚ) + s.misc_plant_allow
  { total_hours := t.hours
    total_hire_cost := t.hire_cost
    total_fuel_litres := t.fuel_litres
    total_fuel_cost := t.fuel_cost
    mob_cost := mob_cost
    overhead_cost := overhead_cost
    grand_total := t.hire_cost + t.fuel_cost + mob_cost + overhead_cost }

/-- Outcome of the equipment handler. -/
inductive EquipmentResult where
  | invalidInput
  | ok (out : EquipmentOutputs)
deriving DecidableEq

/-- Embedding of EquipmentTab.on_calculate_clicked: the three
validation gates in source order, then the computation. -/
def equipmentCalculate (s : EquipmentInputs) : EquipmentResult :=
  if s.days ≤ 0 then .invalidInput
  else if s.hours_per_day < 0 then .invalidInput
  else if s.fuel_price < 0 then .invalidInput
  else .ok (equipmentCompute s)

end ConstructionCalc

namespace ConstructionCalc

/-! ## summary_tab.py and main.py (Aggregator and orchestration) -/

/-- The six cost figures, one per calculator tab: the parsed values
of lbl_total_cost of the blockwork, sweet sand, concrete and land
preparation tabs and of lbl_grand_total of the manpower and equipment
tabs. -/
structure TabCostLabels where
  blocks : ℚ
  sand : ℚ
  concrete : ℚ
  land_prep : ℚ
  manpower : ℚ
  equipment : ℚ
deriving DecidableEq

/-- Whole-application state: the input state of the six calculator
tabs, the cost labels currently displayed on those tabs, and the cost
lines and total displayed on the summary tab. -/
structure AppState where
  masonry_block : Option BlockType
  masonry : MasonryInputs
  sweet_sand : SweetSandInputs
  concrete : ConcreteInputs
  land_prep : LandPrepInputs
  manpower : ManpowerInputs
  equipment : EquipmentInputs
  tab_costs : TabCostLabels
  summary_costs : TabCostLabels
  summary_total : ℚ

/-- Embedding of SummaryTab.refresh_summary: a pure read of the six
cost labels of the calculator tabs into the summary cost lines, and
the grand total as their sum.  It performs no recomputation. -/
def refreshSummary (a : AppState) : AppState :=
  { a with
    summary_costs := a.tab_costs
    summary_total :=
      a.tab_costs.blocks + a.tab_costs.sand + a.tab_costs.concrete
        + a.tab_costs.land_prep + a.tab_costs.manpower + a.tab_costs.equipment }

/-- Embedding of MainWindow._recalculate_all_tabs: every tab runs its
calculate handler (ConcreteTab through its silent recalculate hook);
a handler that aborts or raises leaves that tab label unchanged, and
an exception never stops the loop over the remaining tabs. -/
def recalculateAllTabs (piq : ℚ) (a : AppState) : AppState :=
  let blocks_lbl :=
    match masonryOnCalculate piq a.masonry_block a.masonry with
    | some o => o.total_cost
    | none => a.tab_costs.blocks
  let sand_lbl :=
    match sweetSandCalculate piq a.sweet_sand with
    | .ok o => o.total_cost
    | _ => a.tab_costs.sand
  let concrete_lbl :=
    match concreteCalculateAndUpdate a.concrete with
    | .ok o => o.total
    | _ => a.tab_costs.concrete
  let land_lbl :=
    match landPrepCalculate a.land_prep with
    | .ok o => o.cost_total
    | _ => a.tab_costs.land_prep
  let manpower_lbl :=
    match manpowerCalculate a.manpower with
    | .ok o => o.grand_total
    | _ => a.tab_costs.manpower
  let equipment_lbl :=
    match equipmentCalculate a.equipment with
    | .ok o => o.grand_total
    | _ => a.tab_costs.equipment
  { a with
    tab_costs :=
      { blocks := blocks_lbl
        sand := sand_lbl
        concrete := concrete_lbl
        land_prep := land_lbl
        manpower := manpower_lbl
        equipment := equipment_lbl } }

/-- Embedding of the Refresh Summary button path: SummaryTab wires
the button directly to refresh_summary, with no prior recompute. -/
def onRefreshButtonClicked (a : AppState) : AppState :=
  refreshSummary a

/-- Embedding of MainWindow._on_tab_changed when the summary tab is
selected: first force every calculator to recompute, then refresh the
summary from the updated labels. -/
def onSummaryTabSelected (piq : ℚ) (a : AppState) : AppState :=
  refreshSummary (recalculateAllTabs piq a)

/-- C3: every refresh of the summary reports a total project cost
that is exactly the sum of the six component costs it reads, and the
six reported cost lines are exactly the values read from the
calculator tabs. -/
theorem summary_total_is_sum_of_components (a : AppState) :
    (refreshSummary a).summary_total
      = (refreshSummary a).summary_costs.blocks
        + (refreshSummary a).summary_costs.sand
        + (refreshSummary a).summary_costs.concrete
        + (refreshSummary a).summary_costs.land_prep
        + (refreshSummary a).summary_costs.manpower
        + (refreshSummary a).summary_costs.equipment ∧
    (refreshSummary a).summary_costs = a.tab_costs := by
  constructor <;> rfl

/-- C2 (amended): the tab-switch path recomputes before reading, so
after selecting the summary tab the presented total equals the sum of
the costs recomputed from the current inputs of every calculator
whose handler succeeds, with the concrete tab (whose silent recompute
always raises) contributing its previously displayed value; the
Refresh Summary button path, by contrast, leaves every tab label
untouched and only sums the currently displayed values. -/
theorem summary_fresh_on_tab_switch (piq : ℚ) (a : AppState) (b : BlockType)
    (hblock : a.masonry_block = some b)
    (hsand : sweetSandCalculate piq a.sweet_sand = .ok (sweetSandCompute piq a.sweet_sand))
    (hland : landPrepCalculate a.land_prep = .ok (landPrepCompute a.land_prep))
    (hman : manpowerCalculate a.manpower = .ok (manpowerCompute a.manpower))
    (hequip : equipmentCalculate a.equipment = .ok (equipmentCompute a.equipment)) :
    (onSummaryTabSelected piq a).summary_total
      = (masonryCalculate piq b a.masonry).total_cost
        + (sweetSandCompute piq a.sweet_sand).total_cost
        + a.tab_costs.concrete
        + (landPrepCompute a.land_prep).cost_total
        + (manpowerCompute a.manpower).grand_total
        + (equipmentCompute a.equipment).grand_total ∧
    (onRefreshButtonClicked a).tab_costs = a.tab_costs ∧
    (onRefreshButtonClicked a).summary_total
      = a.tab_costs.blocks + a.tab_costs.sand + a.tab_costs.concrete
        + a.tab_costs.land_prep + a.tab_costs.manpower + a.tab_costs.equipment := by
  refine ⟨?_, rfl, rfl⟩
  unfold onSummaryTabSelected refreshSummary recalculateAllTabs masonryOnCalculate
  rcases concreteCalculateAndUpdate_never_ok a.concrete with hconc | hconc <;>
    simp only [hblock, hsand, hland, hman, hequip, hconc]

end ConstructionCalc

namespace ConstructionCalc

/-- Concrete tab state with every geometry field zero and the default
material values. -/
def concreteZeroInputs : ConcreteInputs :=
  { element_type_index := 0
    slab_length := 0, slab_width := 0, slab_thickness_cm := 0, slab_count := 1
    strip_length := 0, strip_width := 0, strip_thickness_cm := 0
    wall_length := 0, wall_height := 0, wall_thickness_cm := 0, wall_count := 1
    iso_length := 0, iso_width := 0, iso_thickness_cm := 0, iso_count := 1
    conc_density := 2400, conc_cost := 60, rebar_intensity := 100, rebar_cost := 640 }

/-- Sweet sand tab state with every geometry field zero and the
default density and cost. -/
def sweetSandZeroInputs : SweetSandInputs :=
  { length_total := 0, width := 0, fill_height_cm := 0, corner_radius_cm := 0
    bulk_density := 1600, cost_per_ton := 133/10 }

/-- Masonry tab state with every geometry field zero. -/
def masonryZeroInputs : MasonryInputs :=
  { wall_length := 0, wall_height := 0, wall_count := 1
    arc_radius := 0, arc_height := 0, arc_count := 0
    reactor_length := 0, reactor_width := 0, reactor_height := 0, reactor_count := 0
    cost_per_block := 11/20 }

/-- Land preparation tab state with zero geometry and the default
count, lift thickness, passes and cost figures. -/
def landPrepZeroInputs : LandPrepInputs :=
  { site_area := 0, site_depth_cm := 0
    trench_length := 0, trench_width := 0, trench_depth_cm := 0, trench_count := 1
    compaction_target := 95, lift_thickness_cm := 20, passes_per_lift := 4
    cost_per_m3_cut := 3, cost_per_m2_pass := 1/100 }

/-- Equipment tab state with no active fleet rows and the default
schedule, zero overheads. -/
def equipmentEmptyInputs : EquipmentInputs :=
  { rows := [], days := 30, hours_per_day := 8, fuel_price := 1/2
    mobilisation := 0, demobilisation := 0, daily_plant_overhead := 0, misc_plant_allow := 0 }

/-- Application state in which the manpower tab holds a schedule
worth 12000 USD that has never been recalculated: every displayed
label still shows zero. -/
def staleAppState : AppState :=
  { masonry_block := none
    masonry := masonryZeroInputs
    sweet_sand := sweetSandZeroInputs
    concrete := concreteZeroInputs
    land_prep := landPrepZeroInputs
    manpower := manpowerWitnessInputs
    equipment := equipmentEmptyInputs
    tab_costs := { blocks := 0, sand := 0, concrete := 0, land_prep := 0, manpower := 0, equipment := 0 }
    summary_costs := { blocks := 0, sand := 0, concrete := 0, land_prep := 0, manpower := 0, equipment := 0 }
    summary_total := 0 }

/-- C2 counterexample: with a 12000 USD manpower schedule entered but
never recalculated, clicking the Refresh Summary button presents a
total of 0, while the tab-switch path, which does force a recompute
first, presents 12000 from the same inputs: the explicit refresh
button does not recompute and its total is stale. -/
theorem refresh_button_presents_stale_total :
    (onRefreshButtonClicked staleAppState).summary_total = 0 ∧
    (manpowerCompute staleAppState.manpower).grand_total = 12000 ∧
    (onSummaryTabSelected 3 staleAppState).summary_total = 12000 := by
  have hblock : staleAppState.masonry_block = none := rfl
  have hsand : sweetSandCalculate 3 staleAppState.sweet_sand = .invalidInput := by
    norm_num [sweetSandCalculate, staleAppState, sweetSandZeroInputs]
  have hland : landPrepCalculate staleAppState.land_prep
      = .ok (landPrepCompute staleAppState.land_prep) := by
    norm_num [landPrepCalculate, staleAppState, landPrepZeroInputs]
  have hman : manpowerCalculate staleAppState.manpower
      = .ok (manpowerCompute staleAppState.manpower) := by
    norm_num [manpowerCalculate, staleAppState, manpowerWitnessInputs]
  have hequip : equipmentCalculate staleAppState.equipment
      = .ok (equipmentCompute staleAppState.equipment) := by
    norm_num [equipmentCalculate, staleAppState, equipmentEmptyInputs]
  have hlandc : (landPrepCompute staleAppState.land_prep).cost_total = 0 := by
    norm_num [landPrepCompute, staleAppState, landPrepZeroInputs]
  have hmanc : (manpowerCompute staleAppState.manpower).grand_total = 12000 := by
    norm_num [manpowerCompute, manpowerTotals, tradeManhours, tradeCost,
      staleAppState, manpowerWitnessInputs]
  have hec : (equipmentCompute staleAppState.equipment).grand_total = 0 := by
    norm_num [equipmentCompute, equipmentTotals, staleAppState, equipmentEmptyInputs]
  refine ⟨by norm_num [onRefreshButtonClicked, refreshSummary, staleAppState], hmanc, ?_⟩
  unfold onSummaryTabSelected refreshSummary recalculateAllTabs masonryOnCalculate
  rcases concreteCalculateAndUpdate_never_ok staleAppState.concrete with hconc | hconc <;>
  · simp only [hblock, hsand, hland, hman, hequip, hconc, hlandc, hmanc, hec]
    norm_num [staleAppState]

/-- Sweet sand input used in the fresh summary witness: a 5 m by 2 m
basin filled 10 cm deep with no fillet. -/
def sweetSandFreshInputs : SweetSandInputs :=
  { length_total := 5, width := 2, fill_height_cm := 10, corner_radius_cm := 0
    bulk_density := 1600, cost_per_ton := 25 }

/-- Equipment input used in the fresh summary witness: the equipment
scenario of the specification, one unit at 90 USD per hour, 70
percent utilisation, 18 litres per hour, fuel at 0.5 USD. -/
def equipmentFreshInputs : EquipmentInputs :=
  { rows := [{ row_name := "Excavator", count := 1, rate_hour := 90, fuel_lph := 18, util_pct := 70 }]
    days := 30, hours_per_day := 8, fuel_price := 1/2
    mobilisation := 0, demobilisation := 0, daily_plant_overhead := 0, misc_plant_allow := 0 }

/-- Application state in which every calculator holds valid inputs;
the concrete tab label still shows a previously displayed 7 USD. -/
def freshAppState : AppState :=
  { masonry_block := some block40x20x20
    masonry := masonryZeroInputs
    sweet_sand := sweetSandFreshInputs
    concrete := concreteZeroInputs
    land_prep := landPrepWitnessInputs
    manpower := manpowerWitnessInputs
    equipment := equipmentFreshInputs
    tab_costs := { blocks := 0, sand := 0, concrete := 7, land_prep := 0, manpower := 0, equipment := 0 }
    summary_costs := { blocks := 0, sand := 0, concrete := 0, land_prep := 0, manpower := 0, equipment := 0 }
    summary_total := 0 }

/-- C2 witness: on a state where every calculator validates, the
tab-switch path presents exactly the sum of the totals recomputed
from the current inputs, with the concrete tab contributing its
carried-over displayed value. -/
theorem summary_fresh_on_tab_switch_witness :
    (onSummaryTabSelected 3 freshAppState).summary_total
      = (masonryCalculate 3 block40x20x20 freshAppState.masonry).total_cost
        + (sweetSandCompute 3 freshAppState.sweet_sand).total_cost
        + freshAppState.tab_costs.concrete
        + (landPrepCompute freshAppState.land_prep).cost_total
        + (manpowerCompute freshAppState.manpower).grand_total
        + (equipmentCompute freshAppState.equipment).grand_total :=
  (summary_fresh_on_tab_switch 3 freshAppState block40x20x20 rfl
    (by norm_num [sweetSandCalculate, freshAppState, sweetSandFreshInputs])
    (by norm_num [landPrepCalculate, freshAppState, landPrepWitnessInputs])
    (by norm_num [manpowerCalculate, freshAppState, manpowerWitnessInputs])
    (by norm_num [equipmentCalculate, freshAppState, equipmentFreshInputs])).1

end ConstructionCalc

namespace ConstructionCalc

/-! ## The zero-input behaviour of the six calculators -/

/-- With all geometry dimensions zero, the masonry total area is
zero whatever the counts are. -/
lemma masonry_zero_dims_area (piq : ℚ) (block : BlockType) (s : MasonryInputs)
    (hwl : s.wall_length = 0) (har : s.arc_radius = 0) (hrl : s.reactor_length = 0) :
    (masonryCalculate piq block s).total_area = 0 := by
  simp only [masonryCalculate]
  rw [if_neg, if_neg, if_neg]
  · norm_num
  · rintro ⟨h, -⟩
    rw [hrl] at h
    exact lt_irrefl 0 h
  · rintro ⟨h, -⟩
    rw [har] at h
    exact lt_irrefl 0 h
  · rintro ⟨h, -⟩
    rw [hwl] at h
    exact lt_irrefl 0 h

/-- With all geometry dimensions zero, the masonry calculator
reports a total cost of exactly zero, whatever the cost per block. -/
lemma masonry_zero_dims_cost (piq : ℚ) (block : BlockType) (s : MasonryInputs)
    (hwl : s.wall_length = 0) (har : s.arc_radius = 0) (hrl : s.reactor_length = 0) :
    (masonryCalculate piq block s).total_cost = 0 := by
  have harea := masonry_zero_dims_area piq block s hwl har hrl
  have hblocks : (masonryCalculate piq block s).blocks_required = 0 := by
    rw [masonryCalculate_blocks_eq, harea, if_neg]
    rintro ⟨-, h⟩
    exact lt_irrefl 0 h
  have hcost : (masonryCalculate piq block s).total_cost
      = ((masonryCalculate piq block s).blocks_required : ℚ) * s.cost_per_block := rfl
  rw [hcost, hblocks]
  norm_num

/-- With all four element geometries zero, the concrete geometry
raises a ValueError for every element selection, so the calculation
aborts as invalid input. -/
lemma concrete_zero_dims_invalid (s : ConcreteInputs)
    (h0 : s.slab_length = 0) (h1 : s.strip_length = 0)
    (h2 : s.wall_length = 0) (h3 : s.iso_length = 0) :
    concreteCalculateAndUpdate s = .invalidInput := by
  unfold concreteCalculateAndUpdate concreteCalculateGeometry
  split_ifs with ha hb hc hd
  · rw [if_pos (Or.inl (le_of_eq h0))]
  · rw [if_pos (Or.inl (le_of_eq h1))]
  · rw [if_pos (Or.inl (le_of_eq h2))]
  · rw [if_pos (Or.inl (le_of_eq h3))]
  · rfl

/-- With zero platform and trench dimensions and valid compaction
parameters, the earthworks calculator succeeds and reports a total
cost of exactly zero, whatever the unit cost figures. -/
lemma landprep_zero_dims_cost (s : LandPrepInputs)
    (ha : s.site_area = 0) (hd : s.site_depth_cm = 0)
    (hl : s.trench_length = 0) (hw : s.trench_width = 0) (ht : s.trench_depth_cm = 0)
    (hn : 0 < s.trench_count) (hlift : 0 < s.lift_thickness_cm) (hp : 0 < s.passes_per_lift) :
    landPrepCalculate s = .ok (landPrepCompute s) ∧ (landPrepCompute s).cost_total = 0 := by
  constructor
  · unfold landPrepCalculate
    rw [if_neg, if_neg (by omega), if_neg (by intro hcon; nlinarith), if_neg (by omega)]
    push_neg
    refine ⟨by rw [ha], by rw [hd]; norm_num, by rw [hl], by rw [hw], by rw [ht]; norm_num⟩
  · simp only [landPrepCompute, ha, hd, hl, hw, ht]
    norm_num

/-- The manpower accumulation loop ignores every trade whose worker
count is zero. -/
lemma manpowerTotals_all_zero_workers (days : ℤ) (hours_normal hours_ot ot_factor : ℚ)
    (workforce : List Trade) (h : ∀ t ∈ workforce, t.workers = 0) :
    manpowerTotals days hours_normal hours_ot ot_factor workforce = (0, 0) := by
  have hgo := manpowerTotals_go days hours_normal hours_ot ot_factor workforce (0, 0)
  have hfilter : workforce.filter specActiveTrade = [] := by
    refine List.filter_eq_nil_iff.mpr ?_
    intro t ht
    simp only [specActiveTrade, Bool.and_eq_true, decide_eq_true_eq, not_and]
    intro hw
    rw [h t ht] at hw
    exact absurd hw (lt_irrefl 0)
  unfold manpowerTotals
  rw [hgo]
  simp [specTotalManhours, specTotalLabourCost, hfilter]

/-- With every headcount zero and zero overhead figures, the labor
calculator succeeds and reports a grand total of exactly zero,
whatever the hourly rates. -/
lemma manpower_zero_headcount_cost (s : ManpowerInputs)
    (h : ∀ t ∈ s.workforce, t.workers = 0)
    (hmob : s.mobilisation = 0) (hdemob : s.demobilisation = 0)
    (hover : s.daily_overhead = 0) (hmisc : s.misc_allowance = 0)
    (hd : 1 ≤ s.days) (hn : 0 ≤ s.hours_normal) (ho : 0 ≤ s.hours_ot) (hf : 1 ≤ s.ot_factor) :
    manpowerCalculate s = .ok (manpowerCompute s) ∧ (manpowerCompute s).grand_total = 0 := by
  constructor
  · unfold manpowerCalculate
    rw [if_neg (by omega), if_neg (by push_neg; exact ⟨hn, ho⟩), if_neg (by linarith)]
  · have htot := manpowerTotals_all_zero_workers s.days s.hours_normal s.hours_ot s.ot_factor
      s.workforce h
    simp only [manpowerCompute, htot, hmob, hdemob, hover, hmisc]
    norm_num

/-- The equipment accumulation loop, started anywhere, ignores every
row whose unit count is zero. -/
lemma equipmentFold_all_zero_count (schedule_hours hours_per_day fuel_price : ℚ)
    (rows : List EquipRow) (init : EquipTotals) (h : ∀ r ∈ rows, r.count = 0) :
    rows.foldl
      (fun acc row =>
        if row.count ≤ 0 ∨ row.rate_hour ≤ 0 ∨ row.util_pct ≤ 0 ∨ hours_per_day = 0 then acc
        else
          let hours_effective := (row.count : ℚ) * schedule_hours * (row.util_pct / 100)
          let fuel_litres := hours_effective * row.fuel_lph
          { hours := acc.hours + hours_effective
            hire_cost := acc.hire_cost + hours_effective * row.rate_hour
            fuel_litres := acc.fuel_litres + fuel_litres
            fuel_cost := acc.fuel_cost + fuel_litres * fuel_price })
      init = init := by
  induction rows generalizing init with
  | nil => rfl
  | cons r rest ih =>
    have hr : r.count = 0 := h r (List.mem_cons_self r rest)
    rw [List.foldl_cons, if_pos (Or.inl (le_of_eq hr))]
    exact ih init fun t ht => h t (List.mem_cons_of_mem r ht)

/-- With every unit count zero and zero overhead figures, the
equipment calculator succeeds and reports a grand total of exactly
zero, whatever the rates and the fuel price. -/
lemma equipment_zero_count_cost (s : EquipmentInputs)
    (h : ∀ r ∈ s.rows, r.count = 0)
    (hmob : s.mobilisation = 0) (hdemob : s.demobilisation = 0)
    (hover : s.daily_plant_overhead = 0) (hmisc : s.misc_plant_allow = 0)
    (hd : 1 ≤ s.days) (hh : 0 ≤ s.hours_per_day) (hf : 0 ≤ s.fuel_price) :
    equipmentCalculate s = .ok (equipmentCompute s) ∧ (equipmentCompute s).grand_total = 0 := by
  constructor
  · unfold equipmentCalculate
    rw [if_neg (by omega), if_neg (by linarith), if_neg (by linarith)]
  · have htot : equipmentTotals ((s.days : ℚ) * s.hours_per_day) s.hours_per_day
        s.fuel_price s.rows
        = { hours := 0, hire_cost := 0, fuel_litres := 0, fuel_cost := 0 } := by
      unfold equipmentTotals
      exact equipmentFold_all_zero_count ((s.days : ℚ) * s.hours_per_day) s.hours_per_day
        s.fuel_price s.rows _ h
    simp only [equipmentCompute, htot, hmob, hdemob, hover, hmisc]
    norm_num

/-- C4: with all geometry or headcount inputs at zero, the masonry,
earthworks, labor and equipment calculators each produce a
well-defined total cost of exactly 0 whatever the rate and price
fields, while the fill material and concrete calculators instead
signal an invalid-input condition and produce no result. -/
theorem zero_input_law :
    (∀ (piq : ℚ) (block : BlockType) (s : MasonryInputs),
      s.wall_length = 0 → s.arc_radius = 0 → s.reactor_length = 0 →
      (masonryCalculate piq block s).total_cost = 0) ∧
    (∀ (piq : ℚ) (s : SweetSandInputs),
      s.length_total = 0 → s.width = 0 → s.fill_height_cm = 0 →
      sweetSandCalculate piq s = .invalidInput) ∧
    (∀ s : ConcreteInputs,
      s.slab_length = 0 → s.strip_length = 0 → s.wall_length = 0 → s.iso_length = 0 →
      concreteCalculateAndUpdate s = .invalidInput) ∧
    (∀ s : LandPrepInputs,
      s.site_area = 0 → s.site_depth_cm = 0 → s.trench_length = 0 → s.trench_width = 0 →
      s.trench_depth_cm = 0 → 0 < s.trench_count → 0 < s.lift_thickness_cm →
      0 < s.passes_per_lift →
      landPrepCalculate s = .ok (landPrepCompute s) ∧ (landPrepCompute s).cost_total = 0) ∧
    (∀ s : ManpowerInputs,
      (∀ t ∈ s.workforce, t.workers = 0) →
      s.mobilisation = 0 → s.demobilisation = 0 → s.daily_overhead = 0 → s.misc_allowance = 0 →
      1 ≤ s.days → 0 ≤ s.hours_normal → 0 ≤ s.hours_ot → 1 ≤ s.ot_factor →
      manpowerCalculate s = .ok (manpowerCompute s) ∧ (manpowerCompute s).grand_total = 0) ∧
    (∀ s : EquipmentInputs,
      (∀ r ∈ s.rows, r.count = 0) →
      s.mobilisation = 0 → s.demobilisation = 0 → s.daily_plant_overhead = 0 →
      s.misc_plant_allow = 0 → 1 ≤ s.days → 0 ≤ s.hours_per_day → 0 ≤ s.fuel_price →
      equipmentCalculate s = .ok (equipmentCompute s) ∧ (equipmentCompute s).grand_total = 0) := by
  refine ⟨?_, ?_, ?_, ?_, ?_, ?_⟩
  · intro piq block s hwl har hrl
    exact masonry_zero_dims_cost piq block s hwl har hrl
  · intro piq s hL hW hH
    unfold sweetSandCalculate
    rw [if_pos (Or.inl (le_of_eq hL))]
  · intro s h0 h1 h2 h3
    exact concrete_zero_dims_invalid s h0 h1 h2 h3
  · intro s ha hd hl hw ht hn hlift hp
    exact landprep_zero_dims_cost s ha hd hl hw ht hn hlift hp
  · intro s h hmob hdemob hover hmisc hd hn ho hf
    exact manpower_zero_headcount_cost s h hmob hdemob hover hmisc hd hn ho hf
  · intro s h hmob hdemob hover hmisc hd hh hf
    exact equipment_zero_count_cost s h hmob hdemob hover hmisc hd hh hf

end ConstructionCalc

namespace ConstructionCalc

/-- Labor tab state with a trade roster whose headcounts are all
zero, positive rates, a valid schedule and zero overheads. -/
def manpowerZeroInputs : ManpowerInputs :=
  { workforce := [{ trade_name := "Mason", workers := 0, rate := 5 },
                  { trade_name := "Steel Fixer", workers := 0, rate := 6 }]
    days := 30, hours_normal := 8, hours_ot := 2, ot_factor := 3/2
    mobilisation := 0, demobilisation := 0, daily_overhead := 0, misc_allowance := 0 }

/-- Equipment tab state with a fleet whose unit counts are all zero,
positive rates, a valid schedule and zero overheads. -/
def equipmentZeroInputs : EquipmentInputs :=
  { rows := [{ row_name := "Excavator", count := 0, rate_hour := 90, fuel_lph := 18, util_pct := 70 }]
    days := 30, hours_per_day := 8, fuel_price := 1/2
    mobilisation := 0, demobilisation := 0, daily_plant_overhead := 0, misc_plant_allow := 0 }

/-- C4 witness: at concrete all-zero geometry and headcount states,
masonry, earthworks, labor and equipment report total cost 0, and the
fill material and concrete calculators abort as invalid input. -/
theorem zero_input_law_witness :
    (masonryCalculate 3 block40x20x20 masonryZeroInputs).total_cost = 0 ∧
    sweetSandCalculate 3 sweetSandZeroInputs = .invalidInput ∧
    concreteCalculateAndUpdate concreteZeroInputs = .invalidInput ∧
    (landPrepCompute landPrepZeroInputs).cost_total = 0 ∧
    (manpowerCompute manpowerZeroInputs).grand_total = 0 ∧
    (equipmentCompute equipmentZeroInputs).grand_total = 0 := by
  refine ⟨?_, ?_, ?_, ?_, ?_, ?_⟩
  · exact zero_input_law.1 3 block40x20x20 masonryZeroInputs rfl rfl rfl
  · exact zero_input_law.2.1 3 sweetSandZeroInputs rfl rfl rfl
  · exact zero_input_law.2.2.1 concreteZeroInputs rfl rfl rfl rfl
  · exact (zero_input_law.2.2.2.1 landPrepZeroInputs rfl rfl rfl rfl rfl
      (by norm_num [landPrepZeroInputs]) (by norm_num [landPrepZeroInputs])
      (by norm_num [landPrepZeroInputs])).2
  · refine (zero_input_law.2.2.2.2.1 manpowerZeroInputs ?_ rfl rfl rfl rfl
      (by norm_num [manpowerZeroInputs]) (by norm_num [manpowerZeroInputs])
      (by norm_num [manpowerZeroInputs]) (by norm_num [manpowerZeroInputs])).2
    intro t ht
    simp only [manpowerZeroInputs, List.mem_cons, List.mem_singleton] at ht
    rcases ht with rfl | rfl | h
    · rfl
    · rfl
    · exact absurd h (List.not_mem_nil t)
  · refine (zero_input_law.2.2.2.2.2 equipmentZeroInputs ?_ rfl rfl rfl rfl
      (by norm_num [equipmentZeroInputs]) (by norm_num [equipmentZeroInputs])
      (by norm_num [equipmentZeroInputs])).2
    intro r hr
    simp only [equipmentZeroInputs, List.mem_singleton] at hr
    subst hr
    rfl

end ConstructionCalc

namespace ConstructionCalc

/-! ## project_io.py (project save and load) -/

/-- Parsed JSON documents as produced by json.loads. -/
inductive Json where
  | null : Json
  | boolean (b : Bool) : Json
  | num (q : ℚ) : Json
  | str (text : String) : Json
  | arr (items : List Json) : Json
  | obj (entries : List (String × Json)) : Json

/-- Whether a parsed value is a JSON object (a Python dict). -/
def Json.isObj : Json → Bool
  | .obj _ => true
  | _ => false

/-- Embedding of dict.get with default None on a parsed document:
some value for a present key of an object, none otherwise. -/
def Json.get? : Json → String → Option Json
  | .obj entries, key => entries.lookup key
  | _, _ => none

/-- Python equality of a parsed JSON value against the int literal 1,
as used by the version comparison in load_project: a number equal to
1 compares equal, and a Python bool is an int, so true also compares
equal to 1; every other value is unequal. -/
def jsonPyEqOne : Json → Bool
  | .num q => q == (1 : ℚ)
  | .boolean b => b
  | _ => false

/-- Embedding of load_project in project_io.py, applied to an already
parsed document: reject a non-object root, then a schema_version
missing or unequal to PROJECT_SCHEMA_VERSION = 1, then a missing or
non-object data entry; otherwise return the data object unchanged. -/
def load_project (payload : Json) : Except String Json :=
  if payload.isObj = true then
    match payload.get? "schema_version" with
    | some v =>
      if jsonPyEqOne v = true then
        match payload.get? "data" with
        | some (Json.obj entries) => .ok (Json.obj entries)
        | _ => .error "Invalid project file: missing or invalid data object."
      else .error "Unsupported project file version."
    | none => .error "Unsupported project file version."
  else .error "Invalid project file: root is not an object."

/-- The failure condition stated by the specification for load: the
root is not an object, or schema_version is missing or different
from 1 (by the version comparison of the code), or the data entry is
missing or not an object. -/
def specLoadFails (payload : Json) : Bool :=
  !payload.isObj ||
  (match payload.get? "schema_version" with
   | none => true
   | some v => !jsonPyEqOne v) ||
  (match payload.get? "data" with
   | some (Json.obj _) => false
   | _ => true)

/-- C9: load_project fails exactly on the documents the specification
describes, and on success it returns the data object of the document
unchanged. -/
theorem load_project_contract (payload : Json) :
    ((∃ e, load_project payload = .error e) ↔ specLoadFails payload = true) ∧
    (∀ d, load_project payload = .ok d →
      payload.get? "data" = some d ∧ d.isObj = true) := by
  unfold load_project specLoadFails
  by_cases hobj : payload.isObj = true
  · rw [if_pos hobj]
    cases hsv : payload.get? "schema_version" with
    | none =>
      simp [hobj]
    | some v =>
      dsimp only
      by_cases hv : jsonPyEqOne v = true
      · rw [if_pos hv]
        cases hd : payload.get? "data" with
        | none =>
          simp [hobj, hv, hd]
        | some d =>
          cases d with
          | obj entries =>
            constructor
            · simp [hobj, hv, hd]
            · intro d hok
              cases hok
              exact ⟨rfl, rfl⟩
          | null => simp [hobj, hv, hd]
          | boolean b => simp [hobj, hv, hd]
          | num q => simp [hobj, hv, hd]
          | str t => simp [hobj, hv, hd]
          | arr xs => simp [hobj, hv, hd]
      · rw [if_neg hv]
        simp only [Bool.not_eq_true] at hv
        simp [hobj, hv]
  · rw [if_neg hobj]
    simp only [Bool.not_eq_true] at hobj
    simp [hobj]

/-- A well-formed project document with schema_version 1 and a data
object holding one empty section. -/
def sampleProject : Json :=
  .obj [("schema_version", .num 1),
        ("saved_utc", .str "2025-01-01T00:00:00+00:00"),
        ("data", .obj [("breeze_block", .obj [])])]

/-- C9 witness: on the sample document the loader succeeds and
returns exactly the data object; the failure condition is false. -/
theorem load_project_contract_witness :
    load_project sampleProject = .ok (.obj [("breeze_block", .obj [])]) ∧
    sampleProject.get? "data" = some (.obj [("breeze_block", .obj [])]) ∧
    specLoadFails sampleProject = false := by
  have hsv : sampleProject.get? "schema_version" = some (.num 1) := rfl
  have hget : sampleProject.get? "data" = some (.obj [("breeze_block", .obj [])]) := rfl
  have hisobj : sampleProject.isObj = true := rfl
  have hload : load_project sampleProject = .ok (.obj [("breeze_block", .obj [])]) := by
    simp only [load_project, hsv, hget, hisobj, if_true]
    norm_num [jsonPyEqOne]
  have h := (load_project_contract sampleProject).2 (.obj [("breeze_block", .obj [])]) hload
  refine ⟨hload, h.1, ?_⟩
  have hiff := (load_project_contract sampleProject).1
  rcases hfalse : specLoadFails sampleProject with _ | _
  · rfl
  · obtain ⟨e, he⟩ := hiff.mpr hfalse
    rw [hload] at he
    exact absurd he (by simp)
